import Mathlib

/-
Verification of the tbapy client library (src/tbapy/main.py) against its
natural-language specification.

The embedding is a shallow one.  Python optional arguments (which may be an
int, a string, or None) are modelled by `PyVal`, carrying Python's `%s`
string formatting (`PyVal.pyFormat`) and Python truthiness (`PyVal.truthy`).
Each facade method of the `TBA` class is translated into a Lean function
that returns the trace of HTTP GET requests the method issues (`CallTrace`)
and, where a claim needs it, the method's result.  The single place a
request is built, `TBA._fetch` (main.py line 34), is modelled by `doFetch`,
which records both the full URL (`URL_PRE ++ path`) and the relative path,
and attaches the stored auth key as the auth header.  No facade method of
the source assigns to `self`, so each translated method threads the client
value through unchanged; the `client` field of the returned trace is the
client state at method return.
-/

/-- Model of a Python value appearing as an argument to a facade method:
`None`, an integer, or a string. -/
inductive PyVal where
  | none
  | int (n : Int)
  | str (s : String)
deriving Repr, DecidableEq

/-- Python `%s` formatting of a value: `str(None) = "None"`, integers render
in decimal (with a leading minus for negatives), strings render as
themselves. -/
def PyVal.pyFormat : PyVal → String
  | .none => "None"
  | .int n => toString n
  | .str s => s

/-- Python truthiness: `None`, `0` and `''` are falsy, everything else is
truthy. -/
def PyVal.truthy : PyVal → Bool
  | .none => false
  | .int n => n != 0
  | .str s => s != ""

/-- Decoded JSON object, modelled as an association list from keys to
(string-rendered) values; only key membership and lookup matter to the
claims. -/
def JsonObj : Type := List (String × String)

/-- A response oracle: what the remote API returns (decoded) for each
requested path. -/
def World : Type := String → JsonObj

/-- Modelled from the spec: the record wrapper types (Team, Match, Status,
...) live in models.py, which is not under src/.  Per the spec they are
generic containers that forward key lookup and containment to the
underlying decoded mapping, adding no validation.  `Record.contains`
models `k in wrapper` as key membership in the backing mapping. -/
def Record.contains (obj : JsonObj) (k : String) : Bool :=
  obj.any (fun p => p.1 == k)

/-- Modelled from the spec: key lookup `wrapper[k]` on a record wrapper,
forwarded to the backing mapping. -/
def Record.lookup (obj : JsonObj) (k : String) : Option String :=
  (obj.find? (fun p => p.1 == k)).map (fun p => p.2)

/-- Client state of the `TBA` class: the stored auth key
(main.py line 21).  The base URL prefix is a class attribute, never
assigned per-instance, modelled by the constant `URL_PRE`. -/
structure Client where
  auth_key : String
deriving Repr, DecidableEq

/-- Class attribute `TBA.URL_PRE` (main.py line 12). -/
def URL_PRE : String := "https://www.thebluealliance.com/api/v3/"

/-- One HTTP GET request: the full URL, the relative path it was built
from, and the auth key sent in the `X-TBA-Auth-Key` header. -/
structure Request where
  url : String
  path : String
  authKey : String
deriving Repr, DecidableEq

/-- Trace of one facade-method call: the GET requests issued, in order,
and the client state when the method returns. -/
structure CallTrace where
  requests : List Request
  client : Client
deriving Repr, DecidableEq

/-- Model of `TBA._fetch` (main.py lines 27-34): a GET to
`URL_PRE + url` carrying the stored auth key in the auth header. -/
def doFetch (c : Client) (path : String) : Request :=
  { url := URL_PRE ++ path, path := path, authKey := c.auth_key }

/-- A call that issues the given paths, in order, through `doFetch`, and
leaves the client unchanged (no facade method assigns to `self`). -/
def runFetches (c : Client) (paths : List String) : CallTrace :=
  { requests := paths.map (doFetch c), client := c }

namespace TBA

/-- `TBA.team_key` (main.py lines 36-47): return the identifier unchanged
when it is a string, else format it as `'frc%s' % identifier`. -/
def team_key (identifier : PyVal) : String :=
  match identifier with
  | .str s => s
  | v => "frc" ++ v.pyFormat

/-- `TBA.status` (main.py lines 49-55). -/
def status (c : Client) : CallTrace :=
  runFetches c ["status"]

/-- `TBA.__init__` (main.py lines 15-25): store the auth key, fetch the
status endpoint once, and raise `APIKeyError(status['Error'])` when the
decoded status response contains the key `'Error'` (containment on the
Status record wrapper forwards to the backing mapping).  Returns the
request trace together with either the constructed client or the error. -/
def init (w : World) (auth_key : String) : CallTrace × Except String Client :=
  let c : Client := { auth_key := auth_key }
  let resp := w "status"
  if Record.contains resp "Error" then
    (runFetches c ["status"], .error ((Record.lookup resp "Error").getD ""))
  else
    (runFetches c ["status"], .ok c)

/-- `TBA.teams` (main.py lines 58-76). -/
def teams (c : Client) (page year : PyVal) (keys : Bool) : CallTrace :=
  if year.truthy then
    if keys then
      runFetches c ["teams/" ++ year.pyFormat ++ "/" ++ page.pyFormat ++ "/keys"]
    else
      runFetches c ["teams/" ++ year.pyFormat ++ "/" ++ page.pyFormat]
  else
    if keys then
      runFetches c ["teams/" ++ page.pyFormat ++ "/keys"]
    else
      runFetches c ["teams/" ++ page.pyFormat]

/-- `TBA.team` (main.py lines 78-88). -/
def team (c : Client) (t : PyVal) (simple : Bool) : CallTrace :=
  if simple then
    runFetches c ["team/" ++ team_key t ++ "/simple"]
  else
    runFetches c ["team/" ++ team_key t]

/-- `TBA.team_events` (main.py lines 90-108). -/
def team_events (c : Client) (t year : PyVal) (keys : Bool) : CallTrace :=
  if year.truthy then
    if keys then
      runFetches c ["team/" ++ team_key t ++ "/events/" ++ year.pyFormat ++ "/keys"]
    else
      runFetches c ["team/" ++ team_key t ++ "/events/" ++ year.pyFormat]
  else
    if keys then
      runFetches c ["team/" ++ team_key t ++ "/events/keys"]
    else
      runFetches c ["team/" ++ team_key t ++ "/events"]

/-- `TBA.team_awards` (main.py lines 110-125): the event branch is checked
first and does not use `year`. -/
def team_awards (c : Client) (t year event : PyVal) : CallTrace :=
  if event.truthy then
    runFetches c ["team/" ++ team_key t ++ "/event/" ++ event.pyFormat ++ "/awards"]
  else
    if year.truthy then
      runFetches c ["team/" ++ team_key t ++ "/awards/" ++ year.pyFormat]
    else
      runFetches c ["team/" ++ team_key t ++ "/awards"]

/-- `TBA.team_matches` (main.py lines 127-146): `if event: ... elif year:
...` with no `else`, so when both are falsy the method issues no request
and returns Python `None` (modelled as `Option.none`). -/
def team_matches (w : World) (c : Client) (t event year : PyVal) (keys : Bool) :
    CallTrace × Option JsonObj :=
  if event.truthy then
    if keys then
      let p := "team/" ++ team_key t ++ "/event/" ++ event.pyFormat ++ "/matches/keys"
      (runFetches c [p], some (w p))
    else
      let p := "team/" ++ team_key t ++ "/event/" ++ event.pyFormat ++ "/matches"
      (runFetches c [p], some (w p))
  else
    if year.truthy then
      if keys then
        let p := "team/" ++ team_key t ++ "/matches/" ++ year.pyFormat ++ "/keys"
        (runFetches c [p], some (w p))
      else
        let p := "team/" ++ team_key t ++ "/matches/" ++ year.pyFormat
        (runFetches c [p], some (w p))
    else
      (runFetches c [], Option.none)

/-- `TBA.team_years` (main.py lines 148-155). -/
def team_years (c : Client) (t : PyVal) : CallTrace :=
  runFetches c ["team/" ++ team_key t ++ "/years_participated"]

/-- `TBA.team_media` (main.py lines 157-165). -/
def team_media (c : Client) (t year : PyVal) : CallTrace :=
  runFetches c ["team/" ++ team_key t ++ "/media/" ++ year.pyFormat]

/-- `TBA.team_robots` (main.py lines 167-174). -/
def team_robots (c : Client) (t : PyVal) : CallTrace :=
  runFetches c ["team/" ++ team_key t ++ "/robots"]

/-- `TBA.team_districts` (main.py lines 176-183). -/
def team_districts (c : Client) (t : PyVal) : CallTrace :=
  runFetches c ["team/" ++ team_key t ++ "/districts"]

/-- `TBA.team_social_media` (main.py lines 185-192): the fetch call is
`self._fetch('team/%s/social_media')` with no `%` formatting applied, so
the literal format string is requested and the `team` argument is unused. -/
def team_social_media (c : Client) (t : PyVal) : CallTrace :=
  runFetches c ["team/%s/social_media"]

/-- `TBA.events` (main.py lines 194-208). -/
def events (c : Client) (year : PyVal) (keys simple : Bool) : CallTrace :=
  if keys then
    runFetches c ["events/" ++ year.pyFormat ++ "/keys"]
  else
    if simple then
      runFetches c ["events/" ++ year.pyFormat ++ "/simple"]
    else
      runFetches c ["events/" ++ year.pyFormat]

/-- `TBA.event` (main.py lines 210-223). -/
def event (c : Client) (e : PyVal) (simple : Bool) : CallTrace :=
  if simple then
    runFetches c ["event/" ++ e.pyFormat ++ "/simple"]
  else
    runFetches c ["event/" ++ e.pyFormat]

/-- `TBA.event_alliances` (main.py lines 225-232). -/
def event_alliances (c : Client) (e : PyVal) : CallTrace :=
  runFetches c ["event/" ++ e.pyFormat ++ "/alliances"]

/-- `TBA.event_district_points` (main.py lines 234-241). -/
def event_district_points (c : Client) (e : PyVal) : CallTrace :=
  runFetches c ["event/" ++ e.pyFormat ++ "/district_points"]

/-- `TBA.event_insights` (main.py lines 243-250). -/
def event_insights (c : Client) (e : PyVal) : CallTrace :=
  runFetches c ["event/" ++ e.pyFormat ++ "/insights"]

/-- `TBA.event_oprs` (main.py lines 252-259). -/
def event_oprs (c : Client) (e : PyVal) : CallTrace :=
  runFetches c ["event/" ++ e.pyFormat ++ "/oprs"]

/-- `TBA.event_predictions` (main.py lines 261-268). -/
def event_predictions (c : Client) (e : PyVal) : CallTrace :=
  runFetches c ["event/" ++ e.pyFormat ++ "/predictions"]

/-- `TBA.event_rankings` (main.py lines 270-277). -/
def event_rankings (c : Client) (e : PyVal) : CallTrace :=
  runFetches c ["event/" ++ e.pyFormat ++ "/rankings"]

/-- `TBA.event_teams` (main.py lines 279-290). -/
def event_teams (c : Client) (e : PyVal) (keys : Bool) : CallTrace :=
  if keys then
    runFetches c ["event/" ++ e.pyFormat ++ "/teams/keys"]
  else
    runFetches c ["event/" ++ e.pyFormat ++ "/teams"]

/-- `TBA.event_awards` (main.py lines 292-299). -/
def event_awards (c : Client) (e : PyVal) : CallTrace :=
  runFetches c ["event/" ++ e.pyFormat ++ "/awards"]

/-- `TBA.event_matches` (main.py lines 301-312). -/
def event_matches (c : Client) (e : PyVal) (keys : Bool) : CallTrace :=
  if keys then
    runFetches c ["event/" ++ e.pyFormat ++ "/matches/keys"]
  else
    runFetches c ["event/" ++ e.pyFormat ++ "/matches"]

/-- `TBA.match` (main.py lines 314-332), named `matchMethod` because
`match` is reserved in Lean.  When `key` is truthy the method fetches
`match/<key>`.  Otherwise it evaluates
`'match/%s%s_%s%s%s' % (year if not event[0].isdigit() else '', event,
type, number, ('m%s' % round) if not type == 'qm' else '')`.
Indexing `event[0]` raises before any fetch when `event` is not a
nonempty string (TypeError for None/int, IndexError for the empty
string), modelled as an `Except.error` with an empty request trace.  The
`simple` parameter appears in the signature but is never used by the
body. -/
def matchMethod (w : World) (c : Client)
    (key year event type number round : PyVal) (simple : Bool) :
    CallTrace × Except String JsonObj :=
  if key.truthy then
    let p := "match/" ++ key.pyFormat
    (runFetches c [p], .ok (w p))
  else
    match event with
    | .str s =>
      if s = "" then
        (runFetches c [], .error "IndexError")
      else
        let p := "match/" ++ (if s.front.isDigit then "" else year.pyFormat) ++ s
          ++ "_" ++ type.pyFormat ++ number.pyFormat
          ++ (if type = .str "qm" then "" else "m" ++ round.pyFormat)
        (runFetches c [p], .ok (w p))
    | _ => (runFetches c [], .error "TypeError")

/-- `TBA.districts` (main.py lines 334-341). -/
def districts (c : Client) (year : PyVal) : CallTrace :=
  runFetches c ["districts/" ++ year.pyFormat]

/-- `TBA.district_events` (main.py lines 343-354). -/
def district_events (c : Client) (d : PyVal) (keys : Bool) : CallTrace :=
  if keys then
    runFetches c ["district/" ++ d.pyFormat ++ "/events/keys"]
  else
    runFetches c ["district/" ++ d.pyFormat ++ "/events"]

/-- `TBA.district_rankings` (main.py lines 356-363). -/
def district_rankings (c : Client) (d : PyVal) : CallTrace :=
  runFetches c ["district/" ++ d.pyFormat ++ "/rankings"]

/-- `TBA.district_teams` (main.py lines 365-377). -/
def district_teams (c : Client) (d year : PyVal) (keys : Bool) : CallTrace :=
  if keys then
    runFetches c ["district/" ++ d.pyFormat ++ "/" ++ year.pyFormat ++ "/teams/keys"]
  else
    runFetches c ["district/" ++ d.pyFormat ++ "/" ++ year.pyFormat ++ "/teams"]

end TBA

/-- Checks that a call trace left the client unchanged and that every
request it issued carries the stored auth key in its auth header and a URL
equal to the base prefix followed by the request path. -/
def goodTrace (c : Client) (tr : CallTrace) : Bool :=
  tr.client == c &&
    tr.requests.all (fun r => r.authKey == c.auth_key && r.url == URL_PRE ++ r.path)

/-- An arbitrary concrete response oracle, used by concrete witnesses. -/
def w0 : World := fun _ => []

/-- An arbitrary concrete client, used by concrete witnesses. -/
def c0 : Client := { auth_key := "token" }

/-- Returns true when the given construction result is the raised
`APIKeyError`, false when it is a constructed client. -/
def raisesError : Except String Client → Bool
  | .error _ => true
  | .ok _ => false

/-- C6: for every integer n the key normalizer returns `"frc"` followed by
the decimal rendering of n, and for every string s it returns s unchanged;
no bounds checking or format validation takes place. -/
theorem team_key_normalizer :
    (∀ n : Int, TBA.team_key (.int n) = "frc" ++ toString n) ∧
    (∀ s : String, TBA.team_key (.str s) = s) :=
  ⟨fun _ => rfl, fun _ => rfl⟩

/-- C3: `team_social_media` never forwards its team argument into the
path-formatting call: the trace is independent of the team argument, and
the single requested path is the literal unformatted string
`team/%s/social_media`. -/
theorem team_social_media_ignores_team (c : Client) (t t2 : PyVal) :
    TBA.team_social_media c t = TBA.team_social_media c t2 ∧
    (TBA.team_social_media c t).requests = [doFetch c "team/%s/social_media"] :=
  ⟨rfl, rfl⟩

/-- C10: the `simple` parameter of `match()` has no effect: for every
combination of the other arguments, the request trace and the result with
`simple = true` equal those with `simple = false`. -/
theorem match_simple_no_effect (w : World) (c : Client)
    (key year event type number round : PyVal) :
    TBA.matchMethod w c key year event type number round true =
      TBA.matchMethod w c key year event type number round false := rfl

/-- C9: when both `event` and `year` are falsy, `team_matches` issues no
request at all and returns Python `None`. -/
theorem team_matches_no_scope (w : World) (c : Client) (t event year : PyVal)
    (keys : Bool) (he : event.truthy = false) (hy : year.truthy = false) :
    (TBA.team_matches w c t event year keys).1.requests = [] ∧
    (TBA.team_matches w c t event year keys).2 = Option.none := by
  simp [TBA.team_matches, he, hy, runFetches]

/-- Witness for C9 at team 254 with event and year both None. -/
theorem team_matches_no_scope_witness :
    PyVal.none.truthy = false ∧
    ((TBA.team_matches w0 c0 (.int 254) .none .none false).1.requests = [] ∧
     (TBA.team_matches w0 c0 (.int 254) .none .none false).2 = Option.none) :=
  ⟨rfl, team_matches_no_scope w0 c0 (.int 254) .none .none false rfl rfl⟩

/-- C4: client construction issues exactly one GET, to the status
endpoint, carrying the supplied token; it raises the API-key error exactly
when the decoded status response contains an `Error` key, and otherwise
yields the constructed client. -/
theorem init_status_check (w : World) (k : String) :
    (TBA.init w k).1.requests =
      [{ url := URL_PRE ++ "status", path := "status", authKey := k }] ∧
    raisesError (TBA.init w k).2 = Record.contains (w "status") "Error" ∧
    (TBA.init w k).2 =
      (if Record.contains (w "status") "Error" then
        Except.error ((Record.lookup (w "status") "Error").getD "")
      else Except.ok { auth_key := k }) := by
  by_cases h : Record.contains (w "status") "Error" = true <;>
    simp_all [TBA.init, runFetches, doFetch, raisesError]

/-- C1: the composed calling convention of `match()` requests
`match/<year><event>_<type><number>[m<round>]`, where the year is omitted
exactly when the event key starts with a digit and the `m<round>` suffix
is appended exactly when the type is not `qm`; in particular
year 2017, event `chcmp`, type `qm`, number 2 requests
`match/2017chcmp_qm2`, and type `sf`, number 2, round 3 with an event key
not starting with a digit requests `match/<year><event>_sf2m3`. -/
theorem match_composed_path (w : World) (c : Client)
    (year type number round : PyVal) (simple : Bool) (s : String) (hs : s ≠ "") :
    (TBA.matchMethod w c .none year (.str s) type number round simple).1.requests =
      [doFetch c ("match/" ++ (if s.front.isDigit then "" else year.pyFormat) ++ s
        ++ "_" ++ type.pyFormat ++ number.pyFormat
        ++ (if type = .str "qm" then "" else "m" ++ round.pyFormat))] ∧
    (TBA.matchMethod w c .none (.int 2017) (.str "chcmp") (.str "qm") (.int 2)
        round simple).1.requests = [doFetch c "match/2017chcmp_qm2"] ∧
    (s.front.isDigit = false →
      (TBA.matchMethod w c .none year (.str s) (.str "sf") (.int 2) (.int 3)
          simple).1.requests =
        [doFetch c ("match/" ++ year.pyFormat ++ s ++ "_sf2m3")]) := by
  have h2 : toString (2 : Int) = "2" := by decide
  have h3 : toString (3 : Int) = "3" := by decide
  have h2017 : toString (2017 : Int) = "2017" := by decide
  have hfr : ("chcmp" : String).front.isDigit = false := by decide
  refine ⟨?_, ?_, fun hd => ?_⟩
  · simp [TBA.matchMethod, hs, runFetches, PyVal.truthy]
  · simp [TBA.matchMethod, runFetches, PyVal.truthy, PyVal.pyFormat, doFetch,
      h2, h2017, hfr, String.append_assoc]
  · simp [TBA.matchMethod, hs, hd, runFetches, PyVal.truthy, PyVal.pyFormat,
      h2, h3, String.append_assoc]

/-- Witness for C1 at year 2017, event chcmp. -/
theorem match_composed_path_witness :
    ("chcmp" : String) ≠ "" ∧
    (TBA.matchMethod w0 c0 .none (.int 2017) (.str "chcmp") (.str "sf") (.int 2)
        (.int 3) false).1.requests =
      [doFetch c0 ("match/" ++ (PyVal.int 2017).pyFormat ++ "chcmp" ++ "_sf2m3")] := by
  have h := match_composed_path w0 c0 (.int 2017) (.str "sf") (.int 2) (.int 3)
    false "chcmp" (by decide)
  exact ⟨by decide, h.2.2 (by decide)⟩

/-- C5: with a truthy `event`, `team_matches` and `team_awards` request
the event-scoped path `team/<key>/event/<event>/...` and their entire
behaviour is independent of the `year` argument. -/
theorem event_scope_precedence (w : World) (c : Client) (t e y y2 : PyVal)
    (keys : Bool) (he : e.truthy = true) :
    (TBA.team_matches w c t e y keys).1.requests =
      [doFetch c ("team/" ++ TBA.team_key t ++ "/event/" ++ e.pyFormat
        ++ "/matches" ++ (if keys then "/keys" else ""))] ∧
    TBA.team_matches w c t e y keys = TBA.team_matches w c t e y2 keys ∧
    (TBA.team_awards c t y e).requests =
      [doFetch c ("team/" ++ TBA.team_key t ++ "/event/" ++ e.pyFormat
        ++ "/awards")] ∧
    TBA.team_awards c t y e = TBA.team_awards c t y2 e := by
  refine ⟨?_, ?_, ?_, ?_⟩ <;>
    cases keys <;>
      simp [TBA.team_matches, TBA.team_awards, he, runFetches, String.append_assoc]

/-- Witness for C5 at team 254, event chcmp, years 2017 and None. -/
theorem event_scope_precedence_witness :
    (PyVal.str "chcmp").truthy = true ∧
    TBA.team_matches w0 c0 (.int 254) (.str "chcmp") (.int 2017) false =
      TBA.team_matches w0 c0 (.int 254) (.str "chcmp") .none false := by
  have h := event_scope_precedence w0 c0 (.int 254) (.str "chcmp") (.int 2017)
    .none false (by decide)
  exact ⟨by decide, h.2.1⟩

/-- Counterexample to C2 as stated: with page 3 and year 2017 the code does
not request `teams/3/2017` (page first); it requests `teams/2017/3` (year
first). -/
theorem teams_page_year_order_counterexample :
    (TBA.teams c0 (.int 3) (.int 2017) false).requests ≠
      [doFetch c0 "teams/3/2017"] ∧
    (TBA.teams c0 (.int 3) (.int 2017) false).requests =
      [doFetch c0 "teams/2017/3"] := by
  decide

/-- C2 (amended): `teams(p)` with no year requests `teams/p` (with `/keys`
appended when `keys` is true); with a truthy year the YEAR segment comes
first: `teams/y/p` (with `/keys` appended when `keys` is true). -/
theorem teams_path_amended (c : Client) (page year : PyVal) (keys : Bool) :
    (year.truthy = false →
      (TBA.teams c page year keys).requests =
        [doFetch c ("teams/" ++ page.pyFormat ++ (if keys then "/keys" else ""))]) ∧
    (year.truthy = true →
      (TBA.teams c page year keys).requests =
        [doFetch c ("teams/" ++ year.pyFormat ++ "/" ++ page.pyFormat
          ++ (if keys then "/keys" else ""))]) := by
  constructor <;> intro h <;> cases keys <;>
    simp [TBA.teams, h, runFetches, String.append_assoc]

/-- Witness for C2 (amended) at page 3, year None and year 2017. -/
theorem teams_path_amended_witness :
    PyVal.none.truthy = false ∧
    (TBA.teams c0 (.int 3) .none false).requests =
      [doFetch c0 ("teams/" ++ (PyVal.int 3).pyFormat
        ++ (if false then "/keys" else ""))] ∧
    (PyVal.int 2017).truthy = true ∧
    (TBA.teams c0 (.int 3) (.int 2017) true).requests =
      [doFetch c0 ("teams/" ++ (PyVal.int 2017).pyFormat ++ "/"
        ++ (PyVal.int 3).pyFormat ++ (if true then "/keys" else ""))] :=
  ⟨rfl, (teams_path_amended c0 (.int 3) .none false).1 rfl,
    by decide, (teams_path_amended c0 (.int 3) (.int 2017) true).2 (by decide)⟩

/-- Counterexample to C7 as stated: `team_matches` called with both
`event` and `year` absent issues zero GET requests, not exactly one. -/
theorem facade_single_request_counterexample :
    (TBA.team_matches w0 c0 (.int 254) .none .none false).1.requests.length = 0 := by
  decide

/-- C7 (amended): every facade method issues exactly one GET request per
call, with the two exceptions the code forces: `team_matches` issues one
request only when `event` or `year` is truthy (and none otherwise), and
`match()` issues one request only when `key` is truthy or `event` is a
nonempty string key (otherwise it raises before fetching). -/
theorem facade_single_request (w : World) (c : Client) (a b e k n r : PyVal)
    (kb sb : Bool) :
    ((e.truthy = true ∨ b.truthy = true) →
      (TBA.team_matches w c a e b kb).1.requests.length = 1) ∧
    ((k.truthy = true ∨ ∃ s : String, e = PyVal.str s ∧ s ≠ "") →
      (TBA.matchMethod w c k b e a n r sb).1.requests.length = 1) ∧
    (TBA.status c).requests.length = 1 ∧
    (TBA.teams c a b kb).requests.length = 1 ∧
    (TBA.team c a sb).requests.length = 1 ∧
    (TBA.team_events c a b kb).requests.length = 1 ∧
    (TBA.team_awards c a b e).requests.length = 1 ∧
    (TBA.team_years c a).requests.length = 1 ∧
    (TBA.team_media c a b).requests.length = 1 ∧
    (TBA.team_robots c a).requests.length = 1 ∧
    (TBA.team_districts c a).requests.length = 1 ∧
    (TBA.team_social_media c a).requests.length = 1 ∧
    (TBA.events c b kb sb).requests.length = 1 ∧
    (TBA.event c e sb).requests.length = 1 ∧
    (TBA.event_alliances c e).requests.length = 1 ∧
    (TBA.event_district_points c e).requests.length = 1 ∧
    (TBA.event_insights c e).requests.length = 1 ∧
    (TBA.event_oprs c e).requests.length = 1 ∧
    (TBA.event_predictions c e).requests.length = 1 ∧
    (TBA.event_rankings c e).requests.length = 1 ∧
    (TBA.event_teams c e kb).requests.length = 1 ∧
    (TBA.event_awards c e).requests.length = 1 ∧
    (TBA.event_matches c e kb).requests.length = 1 ∧
    (TBA.districts c b).requests.length = 1 ∧
    (TBA.district_events c a kb).requests.length = 1 ∧
    (TBA.district_rankings c a).requests.length = 1 ∧
    (TBA.district_teams c a b kb).requests.length = 1 := by
  refine ⟨fun h => ?_, fun h => ?_, ?_, ?_, ?_, ?_, ?_, ?_, ?_, ?_, ?_, ?_,
    ?_, ?_, ?_, ?_, ?_, ?_, ?_, ?_, ?_, ?_, ?_, ?_, ?_, ?_, ?_⟩
  · by_cases he : e.truthy <;> by_cases hb : b.truthy <;> cases kb <;>
      simp_all [TBA.team_matches, runFetches]
  · rcases h with h | ⟨s, rfl, hs⟩
    · simp [TBA.matchMethod, h, runFetches]
    · by_cases hk : k.truthy <;> simp [TBA.matchMethod, hk, hs, runFetches]
  all_goals
    simp only [TBA.status, TBA.teams, TBA.team, TBA.team_events,
      TBA.team_awards, TBA.team_years, TBA.team_media, TBA.team_robots,
      TBA.team_districts, TBA.team_social_media, TBA.events, TBA.event,
      TBA.event_alliances, TBA.event_district_points, TBA.event_insights,
      TBA.event_oprs, TBA.event_predictions, TBA.event_rankings,
      TBA.event_teams, TBA.event_awards, TBA.event_matches, TBA.districts,
      TBA.district_events, TBA.district_rankings, TBA.district_teams] <;>
    (repeat' split) <;> simp [runFetches]

/-- Witness for C7 (amended) at concrete arguments: team 254 with event
chcmp for team_matches, and a truthy match key for match(). -/
theorem facade_single_request_witness :
    (TBA.team_matches w0 c0 (.int 254) (.str "chcmp") .none false).1.requests.length = 1 ∧
    (TBA.matchMethod w0 c0 (.str "2017nyny_qm1") .none (.str "chcmp") (.int 254)
      .none .none false).1.requests.length = 1 := by
  have h := facade_single_request w0 c0 (.int 254) .none (.str "chcmp")
    (.str "2017nyny_qm1") .none .none false false
  exact ⟨h.1 (Or.inl (by decide)), h.2.1 (Or.inl (by decide))⟩

/-- Requests issued through `doFetch` on a fixed client carry that
client's stored auth key and a URL equal to the base prefix followed by
the path, and `runFetches` leaves the client unchanged. -/
theorem goodTrace_runFetches (c : Client) (ps : List String) :
    goodTrace c (runFetches c ps) = true := by
  simp [goodTrace, runFetches, doFetch, List.all_eq_true]

/-- C8: no facade method modifies the client session state: every call
returns with the same stored auth key it started with, and every request
it issues carries that stored key in its auth header and a URL built from
the unchanged base prefix; construction likewise only issues such
requests for the client it builds. -/
theorem client_state_immutable (w : World) (c : Client) (a b e k n r : PyVal)
    (kb sb : Bool) (tok : String) :
    goodTrace c (TBA.status c) = true ∧
    goodTrace c (TBA.teams c a b kb) = true ∧
    goodTrace c (TBA.team c a sb) = true ∧
    goodTrace c (TBA.team_events c a b kb) = true ∧
    goodTrace c (TBA.team_awards c a b e) = true ∧
    goodTrace c (TBA.team_matches w c a e b kb).1 = true ∧
    goodTrace c (TBA.team_years c a) = true ∧
    goodTrace c (TBA.team_media c a b) = true ∧
    goodTrace c (TBA.team_robots c a) = true ∧
    goodTrace c (TBA.team_districts c a) = true ∧
    goodTrace c (TBA.team_social_media c a) = true ∧
    goodTrace c (TBA.events c b kb sb) = true ∧
    goodTrace c (TBA.event c e sb) = true ∧
    goodTrace c (TBA.event_alliances c e) = true ∧
    goodTrace c (TBA.event_district_points c e) = true ∧
    goodTrace c (TBA.event_insights c e) = true ∧
    goodTrace c (TBA.event_oprs c e) = true ∧
    goodTrace c (TBA.event_predictions c e) = true ∧
    goodTrace c (TBA.event_rankings c e) = true ∧
    goodTrace c (TBA.event_teams c e kb) = true ∧
    goodTrace c (TBA.event_awards c e) = true ∧
    goodTrace c (TBA.event_matches c e kb) = true ∧
    goodTrace c (TBA.matchMethod w c k b e a n r sb).1 = true ∧
    goodTrace c (TBA.districts c b) = true ∧
    goodTrace c (TBA.district_events c a kb) = true ∧
    goodTrace c (TBA.district_rankings c a) = true ∧
    goodTrace c (TBA.district_teams c a b kb) = true ∧
    goodTrace { auth_key := tok } (TBA.init w tok).1 = true := by
  refine ⟨?_, ?_, ?_, ?_, ?_, ?_, ?_, ?_, ?_, ?_, ?_, ?_, ?_, ?_, ?_, ?_,
    ?_, ?_, ?_, ?_, ?_, ?_, ?_, ?_, ?_, ?_, ?_, ?_⟩
  all_goals
    simp only [TBA.status, TBA.teams, TBA.team, TBA.team_events,
      TBA.team_awards, TBA.team_matches, TBA.team_years, TBA.team_media,
      TBA.team_robots, TBA.team_districts, TBA.team_social_media,
      TBA.events, TBA.event, TBA.event_alliances, TBA.event_district_points,
      TBA.event_insights, TBA.event_oprs, TBA.event_predictions,
      TBA.event_rankings, TBA.event_teams, TBA.event_awards,
      TBA.event_matches, TBA.matchMethod, TBA.districts,
      TBA.district_events, TBA.district_rankings, TBA.district_teams,
      TBA.init] <;>
    (repeat' split) <;> exact goodTrace_runFetches _ _
